import Mathlib

/-!
# Verification of the DataVisualization_task3 repository

Shallow embedding of the two scripts of the repository:

* `target_types_&_casualities.py` — loads a terrorism-incident CSV,
  cleans it (`load_and_prepare_data`), builds a color mapping
  (`create_color_mapping`) and a bokeh scatter plot whose interactivity
  is a CustomJS filter callback (`create_visualization`).
* `attack_types_plot.py` — loads the same CSV and pivots incident counts
  by year and attack type (`attack_pivot`), with no input validation.

Modelling conventions:

* A CSV cell is a `Cell`: `na` (missing / NaN), `num n` (a value that
  `pd.to_numeric` turns into a number — an actual number or a numeric
  string), or `text s` (a value on which `pd.to_numeric(errors='coerce')`
  fails and yields NaN).  Numeric values are modelled as `Int`; the claims
  under study never depend on fractional values.
* A raw CSV row is modelled with the four columns the scripts read;
  column *presence* is tracked at the frame level (`RawFrame.columns`),
  mirroring the `col not in df.columns` check.
* `df.sample(sample_limit, random_state=42)` draws `sample_limit` distinct
  row positions; the pseudo-random choice is modelled by an explicit index
  list `pick`, with the properties pandas guarantees (distinct, in-range,
  of the requested length) taken as hypotheses.
* The bokeh palettes `Category20_20` and `Turbo256` are library data, not
  part of the repository; `create_color_mapping` is parameterised over
  them.  `Turbo256[i * step]` is rendered totally with a default value,
  which is never reached for the in-range indices the code produces.
-/

/-- One CSV cell as seen by `pd.to_numeric(errors='coerce')`:
missing (`na`), numeric-parseable (`num`), or non-numeric text (`text`). -/
inductive Cell where
  | na : Cell
  | num : Int → Cell
  | text : String → Cell
deriving DecidableEq, Repr

/-- `pd.to_numeric(col, errors='coerce')` on one cell: numbers pass
through, everything else becomes NaN (here `none`). -/
def toNumeric : Cell → Option Int
  | Cell.num n => some n
  | _ => none

/-- `.fillna(0)` after a numeric coercion. -/
def fillZero (o : Option Int) : Int := o.getD 0

/-- A raw CSV row restricted to the four columns
`iyear`, `targtype1_txt`, `nkill`, `nwound` that the script reads.
`targtype1_txt` is a string column, so only presence matters. -/
structure RawRow where
  iyear : Cell
  targtype1_txt : Option String
  nkill : Cell
  nwound : Cell
deriving DecidableEq, Repr

/-- The loaded CSV: its column names plus its rows. -/
structure RawFrame where
  columns : List String
  rows : List RawRow
deriving DecidableEq, Repr

/-- `required_cols = ['iyear', 'targtype1_txt', 'nkill', 'nwound']`. -/
def requiredCols : List String := ["iyear", "targtype1_txt", "nkill", "nwound"]

/-- A row after the coercion lines
`df['nkill'] = pd.to_numeric(df['nkill'], errors='coerce').fillna(0)`,
`df['nwound'] = ...` and `df['iyear'] = pd.to_numeric(df['iyear'], errors='coerce')`. -/
structure CoercedRow where
  iyear : Option Int
  targtype1_txt : Option String
  nkill : Int
  nwound : Int
deriving DecidableEq, Repr

/-- The three coercion lines applied to one row. -/
def coerceRow (r : RawRow) : CoercedRow :=
  { iyear := toNumeric r.iyear
    targtype1_txt := r.targtype1_txt
    nkill := fillZero (toNumeric r.nkill)
    nwound := fillZero (toNumeric r.nwound) }

/-- A row that survived `df.dropna(subset=['iyear', 'targtype1_txt'])`. -/
structure CleanRow where
  iyear : Int
  targtype1_txt : String
  nkill : Int
  nwound : Int
deriving DecidableEq, Repr

/-- `df.dropna(subset=['iyear', 'targtype1_txt'])` on one row: keep it
exactly when both fields are present. -/
def dropnaRow (r : CoercedRow) : Option CleanRow :=
  match r.iyear, r.targtype1_txt with
  | some y, some t => some ⟨y, t, r.nkill, r.nwound⟩
  | _, _ => none

/-- Lines 28–32 of `load_and_prepare_data`: coerce the numeric columns,
drop rows with missing `iyear` or `targtype1_txt`, then keep
`df[df['iyear'] > 1900]`. -/
def cleanedRows (rows : List RawRow) : List CleanRow :=
  (((rows.map coerceRow).filterMap dropnaRow).filter (fun r => decide (1900 < r.iyear)))

/-- A clean row with the derived `total_casualties` column. -/
structure TotalRow where
  iyear : Int
  targtype1_txt : String
  nkill : Int
  nwound : Int
  total_casualties : Int
deriving DecidableEq, Repr

/-- `df['total_casualties'] = df['nkill'] + df['nwound']` on one row. -/
def addTotal (r : CleanRow) : TotalRow :=
  { iyear := r.iyear
    targtype1_txt := r.targtype1_txt
    nkill := r.nkill
    nwound := r.nwound
    total_casualties := r.nkill + r.nwound }

/-- A row with the derived `circle_size` column (a float in the source,
modelled exactly as a rational). -/
structure SizedRow where
  iyear : Int
  targtype1_txt : String
  nkill : Int
  nwound : Int
  total_casualties : Int
  circle_size : ℚ
deriving DecidableEq, Repr

/-- `max_casualties = df['total_casualties'].max()` — `none` on an empty
frame (pandas yields NaN there). -/
def maxCasualties (rows : List TotalRow) : Option Int :=
  (rows.map (fun r => r.total_casualties)).max?

/-- `df['circle_size'] = 8 + (df['total_casualties'] / max_casualties * 22)
if max_casualties > 0 else 10`.  With NaN `max_casualties` the comparison
is false, so the `else` branch also covers the empty frame. -/
def addSizes (rows : List TotalRow) : List SizedRow :=
  match maxCasualties rows with
  | some m =>
      if 0 < m then
        rows.map (fun r =>
          { iyear := r.iyear, targtype1_txt := r.targtype1_txt, nkill := r.nkill
            nwound := r.nwound, total_casualties := r.total_casualties
            circle_size := 8 + ((r.total_casualties : ℚ) / (m : ℚ) * 22) })
      else
        rows.map (fun r =>
          { iyear := r.iyear, targtype1_txt := r.targtype1_txt, nkill := r.nkill
            nwound := r.nwound, total_casualties := r.total_casualties
            circle_size := 10 })
  | none =>
      rows.map (fun r =>
        { iyear := r.iyear, targtype1_txt := r.targtype1_txt, nkill := r.nkill
          nwound := r.nwound, total_casualties := r.total_casualties
          circle_size := 10 })

/-- `df.sample(sample_limit, random_state=42)`: take the rows at the
pseudo-randomly chosen positions `pick` (without replacement, so the
positions are distinct — a hypothesis where it matters). -/
def sampleRows (rows : List SizedRow) (pick : List Nat) : List SizedRow :=
  pick.filterMap (fun i => rows[i]?)

/-- The full data preparation before color assignment:
coercion, dropna, year filter, derived columns. -/
def preparedRows (rows : List RawRow) : List SizedRow :=
  addSizes ((cleanedRows rows).map addTotal)

/-- The value of `df` after the optional sampling step (line 42):
`if len(df) > sample_limit: df = df.sample(sample_limit, random_state=42)`. -/
def finalFrame (rows : List RawRow) (sampleLimit : Nat) (pick : List Nat) : List SizedRow :=
  if sampleLimit < (preparedRows rows).length then sampleRows (preparedRows rows) pick
  else preparedRows rows

/-- `load_and_prepare_data`: check the required columns (raising
`ValueError` on the first one missing), clean the data, add the derived
columns, and sample when the frame exceeds `sample_limit`.  Before
returning, line 45 prints `int(df['iyear'].min())`: on an empty frame
`.min()` is NaN and `int(NaN)` raises
`ValueError: cannot convert float NaN to integer`, so the function only
returns when the final frame is non-empty. -/
def load_and_prepare_data (frame : RawFrame) (sampleLimit : Nat) (pick : List Nat) :
    Except String (List SizedRow) :=
  match requiredCols.find? (fun c => !(frame.columns.contains c)) with
  | some c => Except.error ("Required column '" ++ c ++ "' not found in dataset")
  | none =>
      if (finalFrame frame.rows sampleLimit pick).length = 0 then
        Except.error "cannot convert float NaN to integer"
      else Except.ok (finalFrame frame.rows sampleLimit pick)

/-- `create_color_mapping`: sorted distinct target types, a color per
target from `Category20_20` (≤ 20 targets) or a stride through
`Turbo256`, returned with the target list itself. -/
def create_color_mapping (rows : List SizedRow) (cat20 turbo : List String) :
    List (String × String) × List String :=
  let unique_targets :=
    List.insertionSort (fun a b => a ≤ b) ((rows.map (fun r => r.targtype1_txt)).dedup)
  let n_targets := unique_targets.length
  let colors :=
    if n_targets ≤ 20 then cat20.take n_targets
    else
      let step := turbo.length / n_targets
      (List.range n_targets).map (fun i => turbo.getD (i * step) "")
  (unique_targets.zip colors, unique_targets)

/-- A row of the `ColumnDataSource`: the seven columns the CustomJS
callback copies (`iyear`, `targtype1_txt`, `nkill`, `nwound`,
`total_casualties`, `circle_size`, `color`). -/
structure VizRow where
  iyear : Int
  targtype1_txt : String
  nkill : Int
  nwound : Int
  total_casualties : Int
  circle_size : ℚ
  color : String
deriving DecidableEq, Repr

/-- `df['color'] = df['targtype1_txt'].map(color_map)` — every target is a
key of the map, so the default is never reached. -/
def addColor (rows : List SizedRow) (cat20 turbo : List String) : List VizRow :=
  let cm := (create_color_mapping rows cat20 turbo).1
  rows.map (fun r =>
    { iyear := r.iyear, targtype1_txt := r.targtype1_txt, nkill := r.nkill
      nwound := r.nwound, total_casualties := r.total_casualties
      circle_size := r.circle_size
      color := ((cm.lookup r.targtype1_txt).getD "") })

/-- The retention test of the CustomJS loop:
`year >= start && year <= end && selected.includes(targ)`. -/
def jsKeep (start stop : Int) (selected : List String) (r : VizRow) : Bool :=
  decide (r.iyear ≥ start) && decide (r.iyear ≤ stop) && selected.contains r.targtype1_txt

/-- The CustomJS filter loop: walk `orig` in order, push every retained
row (all seven columns) onto `new_data` and accumulate
`total_killed` and `total_wounded`. -/
def jsFilter (orig : List VizRow) (start stop : Int) (selected : List String) :
    List VizRow × Int × Int :=
  match orig with
  | [] => ([], 0, 0)
  | r :: rest =>
      let acc := jsFilter rest start stop selected
      if jsKeep start stop selected r then
        (r :: acc.1, r.nkill + acc.2.1, r.nwound + acc.2.2)
      else acc

/-- The state of the plot the callback mutates: the displayed data, the
title text, the stats line (count, year range, totals) and the four axis
range endpoints. -/
structure Stats where
  count : Nat
  yearStart : Int
  yearEnd : Int
  totalKilled : Int
  totalWounded : Int
deriving DecidableEq, Repr

structure PlotState where
  sourceData : List VizRow
  titleText : String
  stats : Stats
  xStart : Int
  xEnd : Int
  yStart : Int
  yEnd : Int
deriving DecidableEq, Repr

/-- The whole CustomJS callback: filter, replace `source.data`, set the
title and the stats line, and rescale the axes only when
`x_vals.length > 0` (the new data is non-empty). -/
def filterCallback (orig : List VizRow) (start stop : Int) (selected : List String)
    (st : PlotState) : PlotState :=
  let res := jsFilter orig start stop selected
  let new_data := res.1
  let total_killed := res.2.1
  let total_wounded := res.2.2
  let x_vals := new_data.map (fun r => r.nkill)
  let y_vals := new_data.map (fun r => r.nwound)
  let base : PlotState :=
    { sourceData := new_data
      titleText := "Terrorism Casualties by Target Type (" ++ toString start ++ " - "
        ++ toString stop ++ ")"
      stats :=
        { count := new_data.length, yearStart := start, yearEnd := stop
          totalKilled := total_killed, totalWounded := total_wounded }
      xStart := st.xStart, xEnd := st.xEnd, yStart := st.yStart, yEnd := st.yEnd }
  match x_vals.min?, x_vals.max?, y_vals.min?, y_vals.max? with
  | some xmn, some xmx, some ymn, some ymx =>
      { base with xStart := xmn - 1, xEnd := xmx + 1, yStart := ymn - 1, yEnd := ymx + 1 }
  | _, _, _, _ => base

/-- A row of `attack_types_plot.py` restricted to the two columns it
groups by. -/
structure AttackRow where
  iyear : Int
  attacktype1_txt : String
deriving DecidableEq, Repr

/-- `df.groupby(['iyear', 'attacktype1_txt']).size().unstack(fill_value=0)`:
for each year present, the incident count of every attack type present
(0 where the combination never occurs). -/
def attack_pivot (rows : List AttackRow) : List (Int × List (String × Nat)) :=
  let years := List.insertionSort (fun a b => a ≤ b) ((rows.map (fun r => r.iyear)).dedup)
  let types :=
    List.insertionSort (fun a b => a ≤ b) ((rows.map (fun r => r.attacktype1_txt)).dedup)
  years.map (fun y =>
    (y, types.map (fun t =>
      (t, (rows.filter (fun r => decide (r.iyear = y) && decide (r.attacktype1_txt = t))).length))))

/-- The whole of `attack_types_plot.py` seen as a data transformation:
it performs no input validation, so it never produces a validation
error. -/
def attackScript (rows : List AttackRow) : Except String (List (Int × List (String × Nat))) :=
  Except.ok (attack_pivot rows)

/-- `Except.error`-ness as a Boolean. -/
def isError {α : Type} (e : Except String α) : Bool :=
  match e with
  | Except.error _ => true
  | Except.ok _ => false

deriving instance DecidableEq for Except

/-! ## Helper definitions and lemmas shared by the claim theorems -/

/-- Spec-side retention test: a raw row survives lines 28–32 exactly when
its year parses to a number above 1900 and its target type is present.
The casualty cells play no role. -/
def keepRow (r : RawRow) : Bool :=
  (match toNumeric r.iyear with
   | some y => decide (1900 < y)
   | none => false) && r.targtype1_txt.isSome

/-- Data carried by a retained row (on retained rows the defaults are
never reached). -/
def prepRow (r : RawRow) : CleanRow :=
  { iyear := (toNumeric r.iyear).getD 0
    targtype1_txt := r.targtype1_txt.getD ""
    nkill := fillZero (toNumeric r.nkill)
    nwound := fillZero (toNumeric r.nwound) }

/-- Forget the derived `circle_size` column. -/
def forgetSize (r : SizedRow) : TotalRow :=
  { iyear := r.iyear, targtype1_txt := r.targtype1_txt, nkill := r.nkill
    nwound := r.nwound, total_casualties := r.total_casualties }

/-- A well-formed frame with one ordinary row, used to instantiate
theorems at a concrete input. -/
def demoFrame : RawFrame :=
  { columns := ["eventid", "iyear", "targtype1_txt", "nkill", "nwound"]
    rows := [{ iyear := Cell.num 2000, targtype1_txt := some "Police"
               nkill := Cell.num 0, nwound := Cell.text "unknown" }] }

/-- The prepared row `demoFrame` yields (its casualties are zero, so the
`else` branch of the circle-size assignment applies). -/
def demoPrepared : SizedRow :=
  { iyear := 2000, targtype1_txt := "Police", nkill := 0, nwound := 0
    total_casualties := 0, circle_size := 10 }

/-- A frame whose single row has a numeric but negative kill count. -/
def negFrame : RawFrame :=
  { columns := ["iyear", "targtype1_txt", "nkill", "nwound"]
    rows := [{ iyear := Cell.num 2000, targtype1_txt := some "Police"
               nkill := Cell.num (-3), nwound := Cell.num 0 }] }

/-- A well-formed frame with two retained rows, for exercising the
sampling branch with `sample_limit = 1`. -/
def twoFrame : RawFrame :=
  { columns := ["iyear", "targtype1_txt", "nkill", "nwound"]
    rows := [{ iyear := Cell.num 2001, targtype1_txt := some "Police"
               nkill := Cell.num 0, nwound := Cell.num 0 },
             { iyear := Cell.num 2002, targtype1_txt := some "Military"
               nkill := Cell.num 0, nwound := Cell.num 0 }] }

/-- A frame with all four required columns but no data rows
("headers-only CSV"). -/
def headersFrame : RawFrame :=
  { columns := ["iyear", "targtype1_txt", "nkill", "nwound"], rows := [] }

/-- One concrete `ColumnDataSource` row. -/
def demoViz : VizRow :=
  { iyear := 2000, targtype1_txt := "Police", nkill := 3, nwound := 1
    total_casualties := 4, circle_size := 10, color := "#1f77b4" }

theorem cleanedRows_nil : cleanedRows [] = [] := rfl

theorem cleanedRows_cons (r : RawRow) (rows : List RawRow) :
    cleanedRows (r :: rows) =
      (if keepRow r then [prepRow r] else []) ++ cleanedRows rows := by
  unfold cleanedRows keepRow prepRow coerceRow dropnaRow
  cases hy : toNumeric r.iyear with
  | none => cases r.targtype1_txt <;> simp [hy]
  | some y =>
      cases ht : r.targtype1_txt with
      | none => simp [hy, ht]
      | some t =>
          by_cases h : 1900 < y
          · simp [hy, ht, h]
          · simp [hy, ht, h]

/-- `cleanedRows` in filter normal form: retention is the per-row test
`keepRow`, the retained rows come out in order, carrying `prepRow`-data. -/
theorem cleanedRows_eq_filter (rows : List RawRow) :
    cleanedRows rows = (rows.filter keepRow).map prepRow := by
  induction rows with
  | nil => rfl
  | cons r rest ih =>
      rw [cleanedRows_cons, ih, List.filter_cons]
      by_cases h : keepRow r
      · simp [h]
      · simp [h]

/-- `keepRow` never looks at the casualty cells. -/
theorem keepRow_ignores_casualties (r : RawRow) (c c' : Cell) :
    keepRow { r with nkill := c, nwound := c' } = keepRow r := rfl

/-- The CustomJS loop is the pure filter-and-sum function: the retained
rows are `filter (jsKeep start stop selected)` of the original data (in
order, all columns unchanged), and the two accumulators are the sums of
`nkill` and `nwound` over exactly those rows. -/
theorem jsFilter_spec (orig : List VizRow) (start stop : Int) (selected : List String) :
    jsFilter orig start stop selected =
      (orig.filter (jsKeep start stop selected),
       ((orig.filter (jsKeep start stop selected)).map (fun r => r.nkill)).sum,
       ((orig.filter (jsKeep start stop selected)).map (fun r => r.nwound)).sum) := by
  induction orig with
  | nil => rfl
  | cons r rest ih =>
      rw [jsFilter, ih, List.filter_cons]
      by_cases h : jsKeep start stop selected r
      · simp [h]
      · simp [h]

/-- `addSizes` only adds the `circle_size` column: forgetting it gives
back the input rows. -/
theorem addSizes_forgetSize (l : List TotalRow) :
    (addSizes l).map forgetSize = l := by
  unfold addSizes
  split
  · split
    · rw [List.map_map]; exact List.map_id l
    · rw [List.map_map]; exact List.map_id l
  · rw [List.map_map]; exact List.map_id l

theorem mem_addSizes (r : SizedRow) (l : List TotalRow) (h : r ∈ addSizes l) :
    forgetSize r ∈ l := by
  rw [← addSizes_forgetSize l]
  exact List.mem_map_of_mem forgetSize h

theorem mem_preparedRows (r : SizedRow) (rows : List RawRow) (h : r ∈ preparedRows rows) :
    ∃ c ∈ cleanedRows rows, forgetSize r = addTotal c := by
  have h1 := mem_addSizes r _ h
  rcases List.mem_map.mp h1 with ⟨c, hc, hEq⟩
  exact ⟨c, hc, hEq.symm⟩

theorem mem_sampleRows (r : SizedRow) (rows : List SizedRow) (pick : List Nat)
    (h : r ∈ sampleRows rows pick) : r ∈ rows := by
  rcases List.mem_filterMap.mp h with ⟨i, _, hi⟩
  exact List.getElem?_mem hi

theorem sampleRows_length (rows : List SizedRow) (pick : List Nat)
    (h : ∀ i ∈ pick, i < rows.length) :
    (sampleRows rows pick).length = pick.length := by
  induction pick with
  | nil => rfl
  | cons i is ih =>
      have hi : i < rows.length := h i (List.mem_cons_self i is)
      have hrest : ∀ j ∈ is, j < rows.length := fun j hj => h j (List.mem_cons_of_mem i hj)
      unfold sampleRows at *
      rw [List.filterMap_cons, List.getElem?_eq_getElem hi]
      simp [ih hrest]

/-- Every row of the post-sampling frame is one of the prepared rows. -/
theorem mem_finalFrame (r : SizedRow) (rows : List RawRow) (limit : Nat) (pick : List Nat)
    (h : r ∈ finalFrame rows limit pick) : r ∈ preparedRows rows := by
  unfold finalFrame at h
  by_cases hlim : limit < (preparedRows rows).length
  · rw [if_pos hlim] at h
    exact mem_sampleRows r _ pick h
  · rw [if_neg hlim] at h
    exact h

/-- When every required column is present, `load_and_prepare_data`
reduces to the empty-frame check on the post-sampling frame. -/
theorem load_ok_cases (frame : RawFrame) (limit : Nat) (pick : List Nat)
    (hcols : ∀ c ∈ requiredCols, c ∈ frame.columns) :
    load_and_prepare_data frame limit pick =
      (if (finalFrame frame.rows limit pick).length = 0 then
        Except.error "cannot convert float NaN to integer"
      else Except.ok (finalFrame frame.rows limit pick)) := by
  have hfind : requiredCols.find? (fun c => !(frame.columns.contains c)) = none := by
    rw [List.find?_eq_none]
    intro c hc
    have h : frame.columns.contains c = true := List.elem_eq_true_of_mem (hcols c hc)
    simp [h, hcols c hc]
  unfold load_and_prepare_data
  rw [hfind]

/-- Every row of a successful `load_and_prepare_data` output is one of
the prepared rows. -/
theorem load_ok_subset (frame : RawFrame) (limit : Nat) (pick : List Nat)
    (out : List SizedRow) (h : load_and_prepare_data frame limit pick = Except.ok out) :
    ∀ r ∈ out, r ∈ preparedRows frame.rows := by
  unfold load_and_prepare_data at h
  cases hfind : requiredCols.find? (fun c => !(frame.columns.contains c)) with
  | some c => rw [hfind] at h; exact absurd h (by simp)
  | none =>
      rw [hfind] at h
      by_cases hlen : (finalFrame frame.rows limit pick).length = 0
      · rw [if_pos hlen] at h
        exact absurd h (by simp)
      · rw [if_neg hlen] at h
        intro r hr
        rw [← Except.ok.inj h] at hr
        exact mem_finalFrame r frame.rows limit pick hr

theorem mem_cleanedRows (c : CleanRow) (rows : List RawRow) (h : c ∈ cleanedRows rows) :
    ∃ r ∈ rows, keepRow r = true ∧ c = prepRow r := by
  rw [cleanedRows_eq_filter] at h
  rcases List.mem_map.mp h with ⟨r, hr, hEq⟩
  exact ⟨r, (List.mem_filter.mp hr).1, (List.mem_filter.mp hr).2, hEq.symm⟩

theorem mem_addColor (v : VizRow) (rows : List SizedRow) (cat20 turbo : List String)
    (h : v ∈ addColor rows cat20 turbo) :
    ∃ s ∈ rows, v.nkill = s.nkill ∧ v.nwound = s.nwound := by
  rcases List.mem_map.mp h with ⟨s, hs, hEq⟩
  exact ⟨s, hs, by rw [← hEq], by rw [← hEq]⟩

/-! ## The claims -/

/-- C1: the client-side filter callback is equivalent to a pure function
of (full dataset, year range, selected category set): a row of the
original data is retained exactly when `start ≤ iyear ≤ end` and its
target-type label is selected, the retained rows keep their relative
order with all seven columns copied unchanged (the output *is*
`List.filter` of the original), and the reported killed/wounded totals
are the sums of `nkill` and `nwound` over exactly the retained rows. -/
theorem c1_filter_callback_is_pure_filter_and_sums
    (orig : List VizRow) (start stop : Int) (selected : List String) :
    jsFilter orig start stop selected =
      (orig.filter (jsKeep start stop selected),
       ((orig.filter (jsKeep start stop selected)).map (fun r => r.nkill)).sum,
       ((orig.filter (jsKeep start stop selected)).map (fun r => r.nwound)).sum)
    ∧ ∀ r : VizRow,
        jsKeep start stop selected r = true ↔
          (start ≤ r.iyear ∧ r.iyear ≤ stop ∧ r.targtype1_txt ∈ selected) := by
  refine ⟨jsFilter_spec orig start stop selected, fun r => ?_⟩
  unfold jsKeep
  constructor
  · intro h
    have h1 := (Bool.and_eq_true _ _).mp h
    have h2 := (Bool.and_eq_true _ _).mp h1.1
    exact ⟨of_decide_eq_true h2.1, of_decide_eq_true h2.2,
      List.mem_of_elem_eq_true h1.2⟩
  · intro ⟨h1, h2, h3⟩
    simp [h1, h2, h3]

theorem c1_witness :
    jsFilter [demoViz] 1999 2005 ["Police", "Military"] = ([demoViz], 3, 1) := by
  have h := (c1_filter_callback_is_pure_filter_and_sums [demoViz] 1999 2005
    ["Police", "Military"]).1
  exact h.trans (by decide)

/-- C7: the set of category labels of the rendered legend and of the
checkbox group — `unique_targets`, the second component of
`create_color_mapping` — is exactly the set of distinct `targtype1_txt`
values of the prepared data: every distinct value appears exactly once
(the label list has no duplicates), and no other label appears. -/
theorem c7_legend_labels_are_distinct_targets
    (rows : List SizedRow) (cat20 turbo : List String) :
    ((create_color_mapping rows cat20 turbo).2).Nodup
    ∧ ∀ t : String,
        t ∈ (create_color_mapping rows cat20 turbo).2 ↔ ∃ r ∈ rows, r.targtype1_txt = t := by
  unfold create_color_mapping
  constructor
  · exact (List.perm_insertionSort _ _).nodup_iff.mpr
      (List.nodup_dedup ((rows.map (fun r => r.targtype1_txt))))
  · intro t
    rw [(List.perm_insertionSort _ _).mem_iff, List.mem_dedup, List.mem_map]

theorem c7_witness :
    (create_color_mapping (preparedRows demoFrame.rows) ["#1f77b4"] []).2 = ["Police"] := by
  have h := c7_legend_labels_are_distinct_targets (preparedRows demoFrame.rows) ["#1f77b4"] []
  decide

/-- C9: beyond dropping rows with missing year or target type, data
preparation also excludes every row whose year is at most 1900; every
row of the prepared dataset (the successful `load_and_prepare_data`
output) has `iyear > 1900`. -/
theorem c9_prepared_years_above_1900
    (frame : RawFrame) (limit : Nat) (pick : List Nat) (out : List SizedRow)
    (h : load_and_prepare_data frame limit pick = Except.ok out) :
    ∀ r ∈ out, 1900 < r.iyear := by
  intro r hr
  have h1 := load_ok_subset frame limit pick out h r hr
  rcases mem_preparedRows r frame.rows h1 with ⟨c, hc, hEq⟩
  have h2 : r.iyear = c.iyear := by
    have := congrArg TotalRow.iyear hEq
    simpa [forgetSize, addTotal] using this
  rw [h2]
  have h3 := (List.mem_filter.mp hc).2
  exact of_decide_eq_true h3

theorem c9_witness :
    load_and_prepare_data demoFrame 50000 [] = Except.ok [demoPrepared]
    ∧ ∀ r ∈ [demoPrepared], 1900 < r.iyear := by
  refine ⟨by decide, ?_⟩
  exact c9_prepared_years_above_1900 demoFrame 50000 [] _ (by decide)

/-- C10: on a filter event that selects zero rows, the callback still
replaces the displayed data with the empty dataset, rewrites the title
for the new year range, and shows 0 incidents with totals of 0 — but
leaves all four axis-range endpoints exactly as they were. -/
theorem c10_empty_selection_keeps_axis_ranges
    (orig : List VizRow) (start stop : Int) (selected : List String) (st : PlotState)
    (h : orig.filter (jsKeep start stop selected) = []) :
    (filterCallback orig start stop selected st).sourceData = []
    ∧ (filterCallback orig start stop selected st).stats =
        { count := 0, yearStart := start, yearEnd := stop
          totalKilled := 0, totalWounded := 0 }
    ∧ (filterCallback orig start stop selected st).titleText =
        "Terrorism Casualties by Target Type (" ++ toString start ++ " - "
          ++ toString stop ++ ")"
    ∧ (filterCallback orig start stop selected st).xStart = st.xStart
    ∧ (filterCallback orig start stop selected st).xEnd = st.xEnd
    ∧ (filterCallback orig start stop selected st).yStart = st.yStart
    ∧ (filterCallback orig start stop selected st).yEnd = st.yEnd := by
  unfold filterCallback
  rw [jsFilter_spec, h]
  simp

theorem c10_witness :
    (filterCallback [demoViz] 1901 1902 ["Police"]
        { sourceData := [demoViz], titleText := "t"
          stats := { count := 1, yearStart := 2000, yearEnd := 2000
                     totalKilled := 3, totalWounded := 1 }
          xStart := 2, xEnd := 4, yStart := 0, yEnd := 2 }).xStart = 2 := by
  have h := c10_empty_selection_keeps_axis_ranges [demoViz] 1901 1902 ["Police"]
    { sourceData := [demoViz], titleText := "t"
      stats := { count := 1, yearStart := 2000, yearEnd := 2000
                 totalKilled := 3, totalWounded := 1 }
      xStart := 2, xEnd := 4, yStart := 0, yEnd := 2 } (by decide)
  exact h.2.2.2.1

/-- C2: a non-numeric `nkill` or `nwound` cell is coerced to zero, and
the casualty cells never affect which rows survive data preparation:
replacing them by arbitrary cells leaves the retained row set (and the
surviving rows' other fields) unchanged. -/
theorem c2_nonnumeric_casualties_coerced_never_dropped :
    (∀ s : String, fillZero (toNumeric (Cell.text s)) = 0)
    ∧ fillZero (toNumeric Cell.na) = 0
    ∧ (∀ (r : RawRow) (c c' : Cell),
        keepRow { r with nkill := c, nwound := c' } = keepRow r)
    ∧ ∀ (rows : List RawRow) (f g : RawRow → Cell),
        cleanedRows (rows.map (fun r => { r with nkill := f r, nwound := g r })) =
          (rows.filter keepRow).map
            (fun r => prepRow { r with nkill := f r, nwound := g r }) := by
  refine ⟨fun s => rfl, rfl, fun r c c' => rfl, fun rows f g => ?_⟩
  rw [cleanedRows_eq_filter, List.filter_map, List.map_map]
  have hkeep : (keepRow ∘ fun r => { r with nkill := f r, nwound := g r }) = keepRow := rfl
  rw [hkeep]
  rfl

theorem c2_witness :
    cleanedRows
        ([({ iyear := Cell.num 2000, targtype1_txt := some "Police"
             nkill := Cell.num 0, nwound := Cell.num 0 } : RawRow)].map
          (fun r => { r with nkill := Cell.text "x", nwound := Cell.na })) =
      [{ iyear := 2000, targtype1_txt := "Police", nkill := 0, nwound := 0 }] := by
  have h := c2_nonnumeric_casualties_coerced_never_dropped.2.2.2
    [({ iyear := Cell.num 2000, targtype1_txt := some "Police"
        nkill := Cell.num 0, nwound := Cell.num 0 } : RawRow)]
    (fun _ => Cell.text "x") (fun _ => Cell.na)
  exact h.trans (by decide)

/-- C3: a row with a missing or non-numeric `iyear`, or a missing
`targtype1_txt`, is excluded from the prepared data; retention is
characterised exactly: a row survives iff its year parses, its target
type is present, and the year exceeds 1900 (the other stated rule). -/
theorem c3_missing_year_or_target_dropped (rows : List RawRow) :
    cleanedRows rows = (rows.filter keepRow).map prepRow
    ∧ ∀ r : RawRow,
        ((toNumeric r.iyear = none ∨ r.targtype1_txt = none) → keepRow r = false)
        ∧ (keepRow r = true ↔
            ∃ y : Int, toNumeric r.iyear = some y ∧ r.targtype1_txt ≠ none ∧ 1900 < y) := by
  refine ⟨cleanedRows_eq_filter rows, fun r => ⟨?_, ?_⟩⟩
  · intro h
    unfold keepRow
    rcases h with h | h
    · rw [h]; simp
    · rw [h]; simp
  · unfold keepRow
    cases hy : toNumeric r.iyear with
    | none => simp [hy]
    | some y =>
        cases ht : r.targtype1_txt with
        | none => simp [hy, ht]
        | some t => simp [hy, ht]

theorem c3_witness :
    cleanedRows
        [{ iyear := Cell.num 2000, targtype1_txt := some "Police"
           nkill := Cell.num 0, nwound := Cell.num 0 },
         { iyear := Cell.na, targtype1_txt := some "Army"
           nkill := Cell.num 1, nwound := Cell.num 2 },
         { iyear := Cell.text "unknown", targtype1_txt := some "Army"
           nkill := Cell.num 1, nwound := Cell.num 2 },
         { iyear := Cell.num 2001, targtype1_txt := none
           nkill := Cell.num 1, nwound := Cell.num 2 }] =
      [{ iyear := 2000, targtype1_txt := "Police", nkill := 0, nwound := 0 }] := by
  have h := (c3_missing_year_or_target_dropped
    [{ iyear := Cell.num 2000, targtype1_txt := some "Police"
       nkill := Cell.num 0, nwound := Cell.num 0 },
     { iyear := Cell.na, targtype1_txt := some "Army"
       nkill := Cell.num 1, nwound := Cell.num 2 },
     { iyear := Cell.text "unknown", targtype1_txt := some "Army"
       nkill := Cell.num 1, nwound := Cell.num 2 },
     { iyear := Cell.num 2001, targtype1_txt := none
       nkill := Cell.num 1, nwound := Cell.num 2 }]).1
  exact h.trans (by decide)

/-- C4: every row retained by data preparation carries
`total_casualties = nkill + nwound` (the coerced counts). -/
theorem c4_total_casualties_eq_sum
    (frame : RawFrame) (limit : Nat) (pick : List Nat) (out : List SizedRow)
    (h : load_and_prepare_data frame limit pick = Except.ok out) :
    ∀ r ∈ out, r.total_casualties = r.nkill + r.nwound := by
  intro r hr
  have h1 := load_ok_subset frame limit pick out h r hr
  rcases mem_preparedRows r frame.rows h1 with ⟨c, _, hEq⟩
  have hk := congrArg TotalRow.nkill hEq
  have hw := congrArg TotalRow.nwound hEq
  have ht := congrArg TotalRow.total_casualties hEq
  simp only [forgetSize, addTotal] at hk hw ht
  rw [ht, hk, hw]

theorem c4_witness :
    demoPrepared.total_casualties = demoPrepared.nkill + demoPrepared.nwound :=
  c4_total_casualties_eq_sum demoFrame 50000 [] [demoPrepared] (by decide)
    demoPrepared (by simp)

/-- C5 fails on the code at `sample_limit = 0`: `twoFrame` has two
retained rows, so the sampling branch applies (`df.sample(0)` draws the
empty position list), but the program then crashes at line 45
(`int` of the empty frame's NaN year minimum) instead of returning the
claimed dataset of exactly `sample_limit` rows. -/
theorem c5_counterexample_zero_sample :
    0 < (preparedRows twoFrame.rows).length
    ∧ load_and_prepare_data twoFrame 0 [] =
        Except.error "cannot convert float NaN to integer"
    ∧ ¬ ∃ out : List SizedRow,
        load_and_prepare_data twoFrame 0 [] = Except.ok out ∧ out.length = 0 := by
  refine ⟨by decide, by decide, ?_⟩
  intro ⟨out, hout, _⟩
  have h : load_and_prepare_data twoFrame 0 [] =
      Except.error "cannot convert float NaN to integer" := by decide
  rw [h] at hout
  exact Except.noConfusion hout

/-- C5 (amended): when the retained rows outnumber a *positive*
`sample_limit`, the returned dataset has exactly `sample_limit` rows,
each one of the retained rows (positions drawn without replacement);
when at least one row is retained and they do not outnumber the
threshold, every retained row is returned; when the post-sampling frame
is empty (`sample_limit = 0`, or no retained rows) the function instead
raises the line-45 `ValueError`. -/
theorem c5_amended_sample_threshold
    (frame : RawFrame) (limit : Nat) (pick : List Nat)
    (hcols : ∀ c ∈ requiredCols, c ∈ frame.columns)
    (_hnodup : pick.Nodup)
    (hlen : pick.length = limit)
    (hidx : ∀ i ∈ pick, i < (preparedRows frame.rows).length) :
    (0 < limit → limit < (preparedRows frame.rows).length →
      load_and_prepare_data frame limit pick =
          Except.ok (sampleRows (preparedRows frame.rows) pick)
        ∧ (sampleRows (preparedRows frame.rows) pick).length = limit
        ∧ ∀ r ∈ sampleRows (preparedRows frame.rows) pick, r ∈ preparedRows frame.rows)
    ∧ (0 < (preparedRows frame.rows).length → (preparedRows frame.rows).length ≤ limit →
      load_and_prepare_data frame limit pick = Except.ok (preparedRows frame.rows))
    ∧ (finalFrame frame.rows limit pick = [] →
      load_and_prepare_data frame limit pick =
        Except.error "cannot convert float NaN to integer") := by
  refine ⟨?_, ?_, ?_⟩
  · intro hpos hlim
    have hfin : finalFrame frame.rows limit pick = sampleRows (preparedRows frame.rows) pick := by
      unfold finalFrame
      rw [if_pos hlim]
    have hcount : (sampleRows (preparedRows frame.rows) pick).length = limit := by
      rw [sampleRows_length _ _ hidx, hlen]
    refine ⟨?_, hcount, fun r hr => mem_sampleRows r _ pick hr⟩
    rw [load_ok_cases frame limit pick hcols, hfin, hcount,
      if_neg (Nat.pos_iff_ne_zero.mp hpos)]
  · intro hpos hlim
    have hfin : finalFrame frame.rows limit pick = preparedRows frame.rows := by
      unfold finalFrame
      rw [if_neg (not_lt.mpr hlim)]
    rw [load_ok_cases frame limit pick hcols, hfin,
      if_neg (Nat.pos_iff_ne_zero.mp hpos)]
  · intro hempty
    rw [load_ok_cases frame limit pick hcols, hempty]
    rfl

theorem c5_witness :
    load_and_prepare_data twoFrame 1 [1] =
        Except.ok (sampleRows (preparedRows twoFrame.rows) [1])
    ∧ (sampleRows (preparedRows twoFrame.rows) [1]).length = 1 := by
  have h := (c5_amended_sample_threshold twoFrame 1 [1] (by decide) (by decide) rfl
    (by decide)) |>.1 (by decide) (by decide)
  exact ⟨h.1, h.2.1⟩

/-- C6 fails on the code: at a headers-only CSV (all four required
columns present, zero data rows) the program still fails — the
post-sampling frame is empty, so the year-range print at line 45 raises
`ValueError: cannot convert float NaN to integer` even though no
required column is missing. -/
theorem c6_counterexample_headers_only :
    isError (load_and_prepare_data headersFrame 50000 []) = true
    ∧ ¬ ∃ c ∈ requiredCols, c ∉ headersFrame.columns := by decide

/-- C6 (amended): `load_and_prepare_data` fails exactly when a required
column (`iyear`, `targtype1_txt`, `nkill`, `nwound`) is absent — then
with the descriptive message naming the first missing column — or when
no rows survive preparation and sampling, in which case line 45 raises
`ValueError: cannot convert float NaN to integer`; with all four
columns present and at least one surviving row, no error is raised.
The missing-column check is the only deliberate validation, and the
pivot script performs none at all. -/
theorem c6_amended_required_columns_or_empty
    (frame : RawFrame) (limit : Nat) (pick : List Nat) :
    (isError (load_and_prepare_data frame limit pick) = true ↔
      (∃ c ∈ requiredCols, c ∉ frame.columns) ∨ finalFrame frame.rows limit pick = [])
    ∧ (∀ c : String,
        requiredCols.find? (fun c => !(frame.columns.contains c)) = some c →
          load_and_prepare_data frame limit pick =
            Except.error ("Required column '" ++ c ++ "' not found in dataset"))
    ∧ ((∀ c ∈ requiredCols, c ∈ frame.columns) →
        finalFrame frame.rows limit pick = [] →
          load_and_prepare_data frame limit pick =
            Except.error "cannot convert float NaN to integer")
    ∧ ∀ arows : List AttackRow, isError (attackScript arows) = false := by
  refine ⟨?_, ?_, ?_, fun arows => rfl⟩
  · cases hfind : requiredCols.find? (fun c => !(frame.columns.contains c)) with
    | some c =>
        have hmem := List.mem_of_find?_eq_some hfind
        have hp := List.find?_some hfind
        constructor
        · intro _
          refine Or.inl ⟨c, hmem, fun hc => ?_⟩
          have hcontains : frame.columns.contains c = true := List.elem_eq_true_of_mem hc
          rw [hcontains] at hp
          exact absurd hp (by simp)
        · intro _
          unfold load_and_prepare_data
          rw [hfind]
          rfl
    | none =>
        have hall := List.find?_eq_none.mp hfind
        have hnomiss : ¬ ∃ c ∈ requiredCols, c ∉ frame.columns := by
          intro ⟨c, hc, hnc⟩
          have h1 := hall c hc
          simp at h1
          exact absurd h1 hnc
        unfold load_and_prepare_data
        rw [hfind]
        by_cases hlen : (finalFrame frame.rows limit pick).length = 0
        · rw [if_pos hlen]
          exact ⟨fun _ => Or.inr (List.length_eq_zero.mp hlen), fun _ => rfl⟩
        · rw [if_neg hlen]
          constructor
          · intro h
            exact absurd h (by simp [isError])
          · intro h
            rcases h with h | h
            · exact absurd h hnomiss
            · exact absurd (by rw [h]; rfl : (finalFrame frame.rows limit pick).length = 0) hlen
  · intro c hc
    unfold load_and_prepare_data
    rw [hc]
  · intro hcols hempty
    rw [load_ok_cases frame limit pick hcols, hempty]
    rfl

theorem c6_witness :
    isError (load_and_prepare_data { columns := ["iyear"], rows := [] } 50000 []) = true
    ∧ load_and_prepare_data { columns := ["iyear"], rows := [] } 50000 [] =
        Except.error "Required column 'targtype1_txt' not found in dataset"
    ∧ load_and_prepare_data headersFrame 50000 [] =
        Except.error "cannot convert float NaN to integer"
    ∧ isError (load_and_prepare_data demoFrame 50000 []) = false
    ∧ isError (attackScript []) = false := by
  have h1 := c6_amended_required_columns_or_empty { columns := ["iyear"], rows := [] } 50000 []
  have h2 := c6_amended_required_columns_or_empty headersFrame 50000 []
  refine ⟨h1.1.mpr (Or.inl ⟨"targtype1_txt", by decide, by decide⟩),
    h1.2.1 "targtype1_txt" (by decide),
    h2.2.2.1 (by decide) (by decide),
    by decide,
    h1.2.2.2 []⟩

/-- C8 fails on the code: `pd.to_numeric(...).fillna(0)` only replaces
non-numeric values and never clamps, so a numeric negative casualty
count passes data preparation unchanged.  At the concrete input
`negFrame` (one row with `nkill = -3`) the prepared dataset contains a
negative kill count, refuting the claimed invariant. -/
theorem c8_counterexample_negative_nkill :
    load_and_prepare_data negFrame 50000 [] =
      Except.ok [{ iyear := 2000, targtype1_txt := "Police", nkill := -3, nwound := 0
                   total_casualties := -3, circle_size := 10 }]
    ∧ ¬ (∀ out : List SizedRow,
          load_and_prepare_data negFrame 50000 [] = Except.ok out →
            ∀ r ∈ out, 0 ≤ r.nkill ∧ 0 ≤ r.nwound) := by
  refine ⟨by decide, fun hall => ?_⟩
  have h := hall
    [{ iyear := 2000, targtype1_txt := "Police", nkill := -3, nwound := 0
       total_casualties := -3, circle_size := 10 }] (by decide)
    { iyear := 2000, targtype1_txt := "Police", nkill := -3, nwound := 0
      total_casualties := -3, circle_size := 10 } (by simp)
  exact absurd h.1 (by decide)

/-- C8 (amended): the prepared rows carry coerced numeric casualty
counts, and *provided every casualty cell of the input coerces to a
non-negative number*, the counts are non-negative in the prepared
dataset and stay so through color assignment and through the client-side
filter callback. -/
theorem c8_amended_casualties_nonneg
    (frame : RawFrame) (limit : Nat) (pick : List Nat) (out : List SizedRow)
    (cat20 turbo : List String)
    (hcas : ∀ r ∈ frame.rows,
        0 ≤ fillZero (toNumeric r.nkill) ∧ 0 ≤ fillZero (toNumeric r.nwound))
    (h : load_and_prepare_data frame limit pick = Except.ok out) :
    (∀ r ∈ out, 0 ≤ r.nkill ∧ 0 ≤ r.nwound)
    ∧ (∀ v ∈ addColor out cat20 turbo, 0 ≤ v.nkill ∧ 0 ≤ v.nwound)
    ∧ ∀ (start stop : Int) (selected : List String),
        ∀ v ∈ (jsFilter (addColor out cat20 turbo) start stop selected).1,
          0 ≤ v.nkill ∧ 0 ≤ v.nwound := by
  have hout : ∀ r ∈ out, 0 ≤ r.nkill ∧ 0 ≤ r.nwound := by
    intro r hr
    have h1 := load_ok_subset frame limit pick out h r hr
    rcases mem_preparedRows r frame.rows h1 with ⟨c, hc, hEq⟩
    rcases mem_cleanedRows c frame.rows hc with ⟨raw, hraw, _, hcEq⟩
    have hk := congrArg TotalRow.nkill hEq
    have hw := congrArg TotalRow.nwound hEq
    simp only [forgetSize, addTotal] at hk hw
    rw [hk, hw, hcEq]
    exact ⟨(hcas raw hraw).1, (hcas raw hraw).2⟩
  have hcol : ∀ v ∈ addColor out cat20 turbo, 0 ≤ v.nkill ∧ 0 ≤ v.nwound := by
    intro v hv
    rcases mem_addColor v out cat20 turbo hv with ⟨s, hs, hk, hw⟩
    rw [hk, hw]
    exact hout s hs
  refine ⟨hout, hcol, ?_⟩
  intro start stop selected v hv
  rw [jsFilter_spec] at hv
  exact hcol v (List.mem_filter.mp hv).1

theorem c8_witness :
    (∀ r ∈ [demoPrepared], 0 ≤ r.nkill ∧ 0 ≤ r.nwound)
    ∧ ∀ v ∈ (jsFilter (addColor [demoPrepared] ["#1f77b4"] []) 1999 2005 ["Police"]).1,
        0 ≤ v.nkill ∧ 0 ≤ v.nwound := by
  have h := c8_amended_casualties_nonneg demoFrame 50000 [] [demoPrepared]
    ["#1f77b4"] [] (by decide) (by decide)
  exact ⟨h.1, h.2.2 1999 2005 ["Police"]⟩
